import Mathlib

/-!
Verification development for the knowledge-engine repository: a token-metered
tool-invocation pipeline (cache lookup, balance check, external query,
sanitize/redact, idempotent charge, cache store) around two WolframAlpha
query tools.

The embedding models the code of `src/api-client.ts` (the External Query
Service Client, the cache key and the cache helpers) and the two tool
handlers of the server module.  Effectful collaborators (KV store, token
ledger, network fetch) are represented by explicit outcome values supplied in
an environment record, and each invocation produces both a response and a
trace of the collaborator calls it performed.
-/

namespace KnowledgeEngine

/-! ## Outcomes of effectful collaborator calls -/

/-- Outcome of the underlying `fetch` in the API client: either an HTTP
response (status, status text, body) or a network-level failure. -/
inductive FetchOutcome where
  | response (status : Nat) (statusText : String) (body : String)
  | networkFailure (message : String)
deriving DecidableEq, Repr

/-- Result type standing for a TypeScript value that is either produced
normally (`ok`) or thrown as an exception carrying a message (`error`). -/
abbrev TsResult (α : Type) := Except String α

/-! ## External Query Service Client (`src/api-client.ts`) -/

namespace WolframApiClient

/-- Error message for HTTP 501 from the Short Answers API, wrapped by the
outer catch of `getQuickAnswer` exactly as in the source. -/
def msgUninterpretable : String :=
  "Failed to get quick answer: WolframAlpha could not interpret the query. Please rephrase or check spelling."

/-- Error message for HTTP 400, wrapped by the outer catch. -/
def msgInvalidFormat : String :=
  "Failed to get quick answer: Invalid query format. Please check your input."

/-- Error message for HTTP 403, wrapped by the outer catch. -/
def msgInvalidCreds : String :=
  "Failed to get quick answer: Invalid WolframAlpha AppID. Please check configuration."

/-- Error message for any other non-2xx status, wrapped by the outer catch. -/
def msgUpstream (status : Nat) (statusText : String) : String :=
  "Failed to get quick answer: WolframAlpha API error: " ++ toString status ++ " " ++ statusText

/-- `WolframApiClient.getQuickAnswer`: maps the HTTP outcome of the Short
Answers API call to either the trimmed body (2xx) or a thrown error.  The
status checks 501 / 400 / 403 / not-ok happen in source order inside a
try block whose catch wraps every failure with the
`Failed to get quick answer:` prefix. -/
def getQuickAnswer (f : FetchOutcome) : TsResult String :=
  match f with
  | .networkFailure msg => .error ("Failed to get quick answer: " ++ msg)
  | .response status statusText body =>
    if status = 501 then
      .error msgUninterpretable
    else if status = 400 then
      .error msgInvalidFormat
    else if status = 403 then
      .error msgInvalidCreds
    else if ¬ (200 ≤ status ∧ status ≤ 299) then
      .error (msgUpstream status statusText)
    else
      .ok body.trim

/-- `WolframApiClient.getCacheKey`: the cache key composition
`wolfram:{toolName}:{query}`. -/
def getCacheKey (toolName query : String) : String :=
  "wolfram:" ++ toolName ++ ":" ++ query

/-- Truthiness of a TypeScript `string | null` value: `null` and the empty
string are falsy. -/
def truthyStr : Option String → Bool
  | some s => !s.isEmpty
  | none => false

/-- `WolframApiClient.checkCache`: reads the KV store; a truthy cached value
is returned, a miss or an empty stored string yields `null`, and any
storage-layer error is swallowed and yields `null`. -/
def checkCache (readResult : TsResult (Option String)) : Option String :=
  match readResult with
  | .ok cached => if truthyStr cached then cached else none
  | .error _ => none

/-- The KV `put` call issued by `storeCache`: key, value and the fixed
15-minute (900 second) expiration TTL. -/
structure KVPut where
  key : String
  value : String
  expirationTtl : Nat
deriving DecidableEq, Repr

/-- The arguments `storeCache` passes to `cacheKV.put`: the given key and
value with `expirationTtl := 900`. -/
def storeCachePut (cacheKey result : String) : KVPut :=
  { key := cacheKey, value := result, expirationTtl := 900 }

/-- `WolframApiClient.storeCache`: the write outcome is caught and swallowed,
so the function returns unit in every case and never throws. -/
def storeCache (putResult : TsResult Unit) : Unit :=
  match putResult with
  | .ok _ => ()
  | .error _ => ()

end WolframApiClient

/-! ## Tool invocation pipeline (the two tool handlers of the server module) -/

/-- The argument object of a tool invocation: `getQuickAnswer` takes a query
with an optional unit system, `getDetailedAnalysis` a query with an optional
max character count. -/
inductive ToolInput where
  | quick (query : String) (units : Option String)
  | detailed (query : String) (maxchars : Option Nat)
deriving DecidableEq, Repr

/-- The `TOOL_NAME` constant of the handler serving the given input. -/
def toolName : ToolInput → String
  | .quick _ _ => "getQuickAnswer"
  | .detailed _ _ => "getDetailedAnalysis"

/-- The `TOOL_COST` constant of the handler serving the given input:
2 tokens for `getQuickAnswer`, 4 for `getDetailedAnalysis`. -/
def toolCost : ToolInput → Nat
  | .quick _ _ => 2
  | .detailed _ _ => 4

/-- The canonical query string each handler feeds to `getCacheKey`:
`query + (units || "")` respectively `query + (maxchars || "")`, with
JavaScript falsy coercion (absent units and absent or zero maxchars
contribute the empty string, a number is concatenated in decimal without a
separator). -/
def canonicalQuery : ToolInput → String
  | .quick query units => query ++ units.getD ""
  | .detailed query maxchars =>
    query ++ (match maxchars with
              | some n => if n = 0 then "" else toString n
              | none => "")

/-- Result of the external ledger's `checkBalance` call. -/
structure BalanceCheckResult where
  sufficient : Bool
  currentBalance : Int
deriving DecidableEq, Repr

/-- Modelled from the spec: `formatInsufficientTokensError` lives in the
external token utilities module (only imported by the server code, not
present under src).  The spec requires a structured message built from the
tool name, the caller's current balance and the tool's required cost. -/
def formatInsufficientTokensError (toolName : String) (currentBalance : Int) (cost : Nat) : String :=
  "Insufficient tokens for " ++ toolName ++ ": current balance " ++
    toString currentBalance ++ ", required " ++ toString cost

/-- One collaborator call performed by a tool invocation, in the order the
handler performs them. -/
inductive Event where
  | cacheGet (key : String)
  | balanceCheck (userId : String) (cost : Nat)
  | apiCall (input : ToolInput)
  | consume (userId : String) (cost : Nat) (serverName toolName : String)
      (input : ToolInput) (output : String) (success : Bool) (actionId : String)
  | cachePut (put : WolframApiClient.KVPut)
deriving DecidableEq, Repr

/-- Recognizer for balance-check events. -/
def Event.isBalanceCheck : Event → Bool
  | .balanceCheck _ _ => true
  | _ => false

/-- Recognizer for external-query events. -/
def Event.isApiCall : Event → Bool
  | .apiCall _ => true
  | _ => false

/-- Recognizer for ledger-consume events. -/
def Event.isConsume : Event → Bool
  | .consume _ _ _ _ _ _ _ _ => true
  | _ => false

/-- Recognizer for cache-write events. -/
def Event.isCachePut : Event → Bool
  | .cachePut _ => true
  | _ => false

/-- The outcomes the effectful collaborators would deliver to one tool
invocation: the authenticated user id from the request context, the KV read
result, the ledger's balance-check and consume outcomes, the external API
outcome and the KV write outcome.  `error` outcomes stand for thrown
exceptions. -/
structure ToolEnv where
  userId : Option String
  cacheRead : TsResult (Option String)
  balance : TsResult BalanceCheckResult
  apiResult : TsResult String
  consumeResult : TsResult Unit
  cachePutResult : TsResult Unit
deriving Repr

/-- The `{ content: [{type: "text", text}], isError? }` response of a tool
invocation (an absent `isError` field is falsy). -/
structure ToolResponse where
  text : String
  isError : Bool
deriving DecidableEq, Repr

/-- A completed tool invocation: its response together with the trace of
collaborator calls it performed. -/
structure ToolRun where
  response : ToolResponse
  events : List Event
deriving DecidableEq, Repr

/-- The tool handler pipeline, common to both tools of the server module:
resolve the user id (throwing if absent), compute the cache key, check the
operational cache and answer a truthy hit with the `[Cached Result]` prefix,
otherwise check the balance (answering an `isError` response on
insufficiency), call the external API, sanitize and redact the raw result,
consume tokens with the invocation's action id, store the final result in
the cache, and return it; every thrown exception is caught at the boundary
and converted to an `Error: `-prefixed `isError` response.  `sanitizeFn` and
`redactFn` stand for `sanitizeOutput` and `redactPII` applied with the
handler's fixed option objects. -/
def runTool (input : ToolInput) (sanitizeFn redactFn : String → String)
    (actionId : String) (env : ToolEnv) : ToolRun :=
  match env.userId with
  | none =>
    { response := { text := "Error: User ID not found in authentication context", isError := true },
      events := [] }
  | some userId =>
    let cacheKey := WolframApiClient.getCacheKey (toolName input) (canonicalQuery input)
    let cachedResult := WolframApiClient.checkCache env.cacheRead
    if WolframApiClient.truthyStr cachedResult then
      { response := { text := "[Cached Result]\n\n" ++ cachedResult.getD "", isError := false },
        events := [Event.cacheGet cacheKey] }
    else
      match env.balance with
      | .error msg =>
        { response := { text := "Error: " ++ msg, isError := true },
          events := [Event.cacheGet cacheKey, Event.balanceCheck userId (toolCost input)] }
      | .ok balanceCheck =>
        if !balanceCheck.sufficient then
          { response :=
              { text := formatInsufficientTokensError (toolName input)
                  balanceCheck.currentBalance (toolCost input),
                isError := true },
            events := [Event.cacheGet cacheKey, Event.balanceCheck userId (toolCost input)] }
        else
          match env.apiResult with
          | .error msg =>
            { response := { text := "Error: " ++ msg, isError := true },
              events := [Event.cacheGet cacheKey, Event.balanceCheck userId (toolCost input),
                         Event.apiCall input] }
          | .ok result =>
            let sanitized := sanitizeFn result
            let finalResult := redactFn sanitized
            match env.consumeResult with
            | .error msg =>
              { response := { text := "Error: " ++ msg, isError := true },
                events := [Event.cacheGet cacheKey, Event.balanceCheck userId (toolCost input),
                           Event.apiCall input,
                           Event.consume userId (toolCost input) "knowledge-engine"
                             (toolName input) input finalResult true actionId] }
            | .ok _ =>
              { response := { text := finalResult, isError := false },
                events := [Event.cacheGet cacheKey, Event.balanceCheck userId (toolCost input),
                           Event.apiCall input,
                           Event.consume userId (toolCost input) "knowledge-engine"
                             (toolName input) input finalResult true actionId,
                           Event.cachePut (WolframApiClient.storeCachePut cacheKey finalResult)] }

/-- Index of the first event satisfying a recognizer, if any. -/
def firstIdxOf (p : Event → Bool) : List Event → Option Nat
  | [] => none
  | e :: rest => if p e then some 0 else (firstIdxOf p rest).map (fun n => n + 1)

/-- Holds when every occurrence of a `q`-event is preceded by a `p`-event:
either no `q`-event occurs, or both kinds occur and the first `p`-event
comes strictly before the first `q`-event. -/
def eventsBefore (p q : Event → Bool) (l : List Event) : Bool :=
  match firstIdxOf q l, firstIdxOf p l with
  | some j, some i => i < j
  | some _, none => false
  | none, _ => true

/-! ## Output redaction (spec-modelled external collaborator)

The sanitizer/redactor library is an external collaborator of the repository
(imported, not implemented in the given source); the spec fixes its contract:
scan the sanitized text for sensitive-data patterns of the enabled categories
and replace every match with the fixed placeholder.  The definitions below
model the credit-card category with the spec's own example pattern, a
16-digit number in four dash-separated groups. -/

/-- A credit-card-like match starts at the head of the list: nineteen
characters, four groups of four decimal digits separated by dashes
(positions 4, 9 and 14 hold the dashes).  Positions beyond the end of the
list read as a space and therefore never match. -/
def ccAt (l : List Char) : Bool :=
  (List.range 19).all fun i =>
    if i % 5 = 4 then l.getD i ' ' = '-' else (l.getD i ' ').isDigit

/-- Some suffix of the list starts with a credit-card-like match. -/
def containsCC : List Char → Bool
  | [] => false
  | c :: rest => ccAt (c :: rest) || containsCC rest

/-- The characters of the fixed redaction placeholder `[REDACTED]`. -/
def placeholderChars : List Char :=
  ['[', 'R', 'E', 'D', 'A', 'C', 'T', 'E', 'D', ']']

/-- Fuel-indexed redaction scanner: walk the text left to right, replace each
credit-card-like match by the placeholder and continue after it, keep every
other character.  The fuel bounds the recursion and is always instantiated
with the length of the list. -/
def redactCCAux : Nat → List Char → List Char
  | 0, _ => []
  | _ + 1, [] => []
  | fuel + 1, c :: rest =>
    if ccAt (c :: rest) then placeholderChars ++ redactCCAux fuel (rest.drop 18)
    else c :: redactCCAux fuel rest

/-- Redact all credit-card-like matches of a character list. -/
def redactCC (l : List Char) : List Char :=
  redactCCAux l.length l

/-- Modelled from the spec: `redactPII` of the external security library with
the credit-card category enabled replaces every credit-card-like match by the
fixed `[REDACTED]` placeholder. -/
def redactPII (s : String) : String :=
  String.mk (redactCC s.data)

/-- A credit-card-like pattern occurs somewhere in the string. -/
def containsCreditCard (s : String) : Bool :=
  containsCC s.data

/-! ### Redaction removes every credit-card-like occurrence -/

theorem ccAt_head_digit {l : List Char} (h : ccAt l = true) :
    (l.getD 0 ' ').isDigit = true := by
  unfold ccAt at h
  have h0 := List.all_eq_true.mp h 0 (by simp)
  simpa using h0

theorem ccAt_cons_of_nondigit {c : Char} {l : List Char} (hd : c.isDigit = false) :
    ccAt (c :: l) = false := by
  cases hb : ccAt (c :: l) with
  | false => rfl
  | true =>
    have := ccAt_head_digit hb
    simp [List.getD_cons_zero] at this
    rw [this] at hd
    exact absurd hd (by simp)

theorem ccAt_of_bracket {l : List Char} {j : Nat} (hj : j < 19)
    (hb : l.getD j ' ' = '[') : ccAt l = false := by
  cases h2 : ccAt l with
  | false => rfl
  | true =>
    exfalso
    unfold ccAt at h2
    have hall := List.all_eq_true.mp h2 j (List.mem_range.mpr hj)
    rw [hb] at hall
    split at hall <;> simp at hall

theorem containsCC_append_nondigit {pre x : List Char}
    (hpre : pre.all (fun c => !c.isDigit) = true) (hx : containsCC x = false) :
    containsCC (pre ++ x) = false := by
  induction pre with
  | nil => simpa using hx
  | cons p pre ih =>
    have hp : p.isDigit = false := by
      have := List.all_eq_true.mp hpre p (by simp)
      simpa using this
    have hrest : pre.all (fun c => !c.isDigit) = true := by
      rw [List.all_eq_true]
      intro y hy
      exact List.all_eq_true.mp hpre y (by simp [hy])
    show containsCC (p :: (pre ++ x)) = false
    unfold containsCC
    rw [ccAt_cons_of_nondigit hp, ih hrest]
    rfl

theorem redactCCAux_take (fuel : Nat) :
    ∀ l : List Char, l.length ≤ fuel → ∀ n : Nat,
      (redactCCAux fuel l).take n = l.take n ∨
        ∃ j, j < n ∧ (redactCCAux fuel l).getD j ' ' = '[' := by
  induction fuel with
  | zero =>
    intro l hlen n
    have : l = [] := List.length_eq_zero.mp (Nat.le_zero.mp hlen)
    subst this
    left
    rfl
  | succ fuel ih =>
    intro l hlen n
    cases l with
    | nil => left; rfl
    | cons c rest =>
      have hlen' : rest.length ≤ fuel := by
        simp only [List.length_cons] at hlen
        omega
      by_cases hcc : ccAt (c :: rest) = true
      · rw [show redactCCAux (fuel + 1) (c :: rest) =
            placeholderChars ++ redactCCAux fuel (rest.drop 18) by
          simp [redactCCAux, hcc]]
        cases n with
        | zero => left; rfl
        | succ m =>
          right
          exact ⟨0, Nat.succ_pos m, by simp [placeholderChars]⟩
      · rw [show redactCCAux (fuel + 1) (c :: rest) =
            c :: redactCCAux fuel rest by
          simp [redactCCAux, hcc]]
        cases n with
        | zero => left; rfl
        | succ m =>
          rcases ih rest hlen' m with heq | ⟨j, hj, hb⟩
          · left
            simp [List.take_succ_cons, heq]
          · right
            exact ⟨j + 1, by omega, by simpa [List.getD_cons_succ] using hb⟩

theorem ccAt_cons_redactCCAux {c : Char} {rest : List Char} {fuel : Nat}
    (hcc : ccAt (c :: rest) = false) (hlen : rest.length ≤ fuel) :
    ccAt (c :: redactCCAux fuel rest) = false := by
  rcases redactCCAux_take fuel rest hlen 18 with heq | ⟨j, hj, hb⟩
  · -- the first eighteen redacted characters agree with the original ones,
    -- so the nineteen-character window seen by `ccAt` is unchanged
    have hpt : ∀ i, i < 19 →
        (c :: redactCCAux fuel rest).getD i ' ' = (c :: rest).getD i ' ' := by
      intro i hi
      cases i with
      | zero => rfl
      | succ j2 =>
        have hj2 : j2 < 18 := by omega
        simp only [List.getD_cons_succ]
        rw [List.getD_eq_getElem?_getD, List.getD_eq_getElem?_getD,
          ← List.getElem?_take_of_lt (l := redactCCAux fuel rest) hj2,
          ← List.getElem?_take_of_lt (l := rest) hj2, heq]
    cases h2 : ccAt (c :: redactCCAux fuel rest) with
    | false => rfl
    | true =>
      exfalso
      unfold ccAt at h2
      have h3 : ccAt (c :: rest) = true := by
        unfold ccAt
        rw [List.all_eq_true]
        intro i hi
        have hi19 : i < 19 := List.mem_range.mp hi
        have := List.all_eq_true.mp h2 i hi
        rwa [hpt i hi19] at this
      rw [h3] at hcc
      exact absurd hcc (by simp)
  · exact ccAt_of_bracket (j := j + 1) (by omega)
      (by simpa [List.getD_cons_succ] using hb)

theorem containsCC_redactCCAux (fuel : Nat) :
    ∀ l : List Char, l.length ≤ fuel → containsCC (redactCCAux fuel l) = false := by
  induction fuel with
  | zero => intro l _; rfl
  | succ fuel ih =>
    intro l hlen
    cases l with
    | nil => rfl
    | cons c rest =>
      have hlen' : rest.length ≤ fuel := by
        simp only [List.length_cons] at hlen
        omega
      by_cases hcc : ccAt (c :: rest) = true
      · rw [show redactCCAux (fuel + 1) (c :: rest) =
            placeholderChars ++ redactCCAux fuel (rest.drop 18) by
          simp [redactCCAux, hcc]]
        refine containsCC_append_nondigit (by decide) (ih _ ?_)
        have := List.length_drop 18 rest
        omega
      · rw [show redactCCAux (fuel + 1) (c :: rest) =
            c :: redactCCAux fuel rest by
          simp [redactCCAux, hcc]]
        unfold containsCC
        rw [ccAt_cons_redactCCAux (by simpa using hcc) hlen', ih rest hlen']
        rfl

theorem containsCC_redactCC (l : List Char) : containsCC (redactCC l) = false :=
  containsCC_redactCCAux l.length l (Nat.le_refl _)

theorem containsCreditCard_redactPII (s : String) :
    containsCreditCard (redactPII s) = false :=
  containsCC_redactCC s.data

/-! ## Claim theorems -/

/-- C9, counterexample: for the `getQuickAnswer` tool with query
`distance from LA to NY` and units `metric` the handler's canonical query is
the bare concatenation `query + (units || "")`, so the computed cache key is
`wolfram:getQuickAnswer:distance from LA to NYmetric` — not the claimed key
with a space before the units — and the composition is not injective: the
distinct argument pairs (`distance from LA to NY`, units `metric`) and
(`distance from LA to NYmetric`, no units) yield the same key. -/
theorem cacheKey_claim_counterexample :
    WolframApiClient.getCacheKey
        (toolName (ToolInput.quick "distance from LA to NY" (some "metric")))
        (canonicalQuery (ToolInput.quick "distance from LA to NY" (some "metric"))) ≠
      "wolfram:getQuickAnswer:distance from LA to NY metric" ∧
    ToolInput.quick "distance from LA to NY" (some "metric") ≠
      ToolInput.quick "distance from LA to NYmetric" none ∧
    WolframApiClient.getCacheKey
        (toolName (ToolInput.quick "distance from LA to NY" (some "metric")))
        (canonicalQuery (ToolInput.quick "distance from LA to NY" (some "metric"))) =
      WolframApiClient.getCacheKey
        (toolName (ToolInput.quick "distance from LA to NYmetric" none))
        (canonicalQuery (ToolInput.quick "distance from LA to NYmetric" none)) := by
  refine ⟨by decide, by decide, by decide⟩

/-- C9 (amended): the cache key is the deterministic composition
`wolfram:{toolName}:{canonicalQuery}`, where the `getQuickAnswer` handler's
canonical query is the query concatenated directly (without separator) with
the units string or the empty string; it is not injective over distinct
argument pairs, and for query `distance from LA to NY` with units `metric`
the key equals `wolfram:getQuickAnswer:distance from LA to NYmetric`. -/
theorem getCacheKey_composition :
    (∀ t q, WolframApiClient.getCacheKey t q = "wolfram:" ++ t ++ ":" ++ q) ∧
    (∀ q u, canonicalQuery (ToolInput.quick q u) = q ++ u.getD "") ∧
    WolframApiClient.getCacheKey
        (toolName (ToolInput.quick "distance from LA to NY" (some "metric")))
        (canonicalQuery (ToolInput.quick "distance from LA to NY" (some "metric"))) =
      "wolfram:getQuickAnswer:distance from LA to NYmetric" := by
  refine ⟨fun t q => rfl, fun q u => rfl, by decide⟩

/-- C7, counterexample: a present but empty stored value is not returned by
the cache read — the TypeScript truthiness test maps it to `null`. -/
theorem checkCache_empty_counterexample :
    WolframApiClient.checkCache (Except.ok (some "")) ≠ some "" ∧
    WolframApiClient.checkCache (Except.ok (some "")) = none := by
  refine ⟨by decide, by decide⟩

/-- C7 (amended): cache operations are best-effort and never fail the tool
call: the read returns the stored value when present and non-empty, and
`null` on a miss, on an empty stored value, or on any storage-layer error
(never throwing); the write issues a put with the fixed 900-second TTL and
swallows any storage-layer error (never throwing), so the cache-write
outcome cannot change the invocation's result. -/
theorem cache_best_effort :
    (∀ s : String, s.isEmpty = false →
      WolframApiClient.checkCache (Except.ok (some s)) = some s) ∧
    WolframApiClient.checkCache (Except.ok none) = none ∧
    (∀ e : String, WolframApiClient.checkCache (Except.error e) = none) ∧
    (∀ s : String, s.isEmpty = true →
      WolframApiClient.checkCache (Except.ok (some s)) = none) ∧
    (∀ r : TsResult Unit, WolframApiClient.storeCache r = ()) ∧
    (∀ k v : String, (WolframApiClient.storeCachePut k v).expirationTtl = 900) ∧
    (∀ (input : ToolInput) (sfn rfn : String → String) (aid : String)
        (env : ToolEnv) (r1 r2 : TsResult Unit),
      runTool input sfn rfn aid { env with cachePutResult := r1 } =
        runTool input sfn rfn aid { env with cachePutResult := r2 }) := by
  refine ⟨?_, rfl, fun e => rfl, ?_, ?_, fun k v => rfl, ?_⟩
  · intro s hs
    simp [WolframApiClient.checkCache, WolframApiClient.truthyStr, hs]
  · intro s hs
    simp [WolframApiClient.checkCache, WolframApiClient.truthyStr, hs]
  · intro r
    cases r <;> rfl
  · intro input sfn rfn aid env r1 r2
    cases env
    rfl

/-- Witness for C7's theorem at concrete inputs. -/
theorem cache_best_effort_witness :
    WolframApiClient.checkCache (Except.ok (some "2,789 km")) = some "2,789 km" ∧
    WolframApiClient.checkCache (Except.error "kv unavailable") = none := by
  exact ⟨cache_best_effort.1 "2,789 km" (by decide),
    cache_best_effort.2.2.1 "kv unavailable"⟩

/-- The upstream-error message differs from each of the three fixed error
messages whatever the status and status text: the strings already differ
within the constant prefix of the upstream message. -/
theorem msgUpstream_ne_fixed (status : Nat) (statusText : String) :
    WolframApiClient.msgUpstream status statusText ≠ WolframApiClient.msgUninterpretable ∧
    WolframApiClient.msgUpstream status statusText ≠ WolframApiClient.msgInvalidFormat ∧
    WolframApiClient.msgUpstream status statusText ≠ WolframApiClient.msgInvalidCreds := by
  have hL : ∀ k : Nat, k < 52 →
      (WolframApiClient.msgUpstream status statusText).data.getD k ' ' =
        "Failed to get quick answer: WolframAlpha API error: ".data.getD k ' ' := by
    intro k hk
    simp only [WolframApiClient.msgUpstream, String.data_append]
    rw [List.append_assoc, List.append_assoc, List.getD_eq_getElem?_getD,
      List.getElem?_append_left (by simpa using hk), List.getD_eq_getElem?_getD]
  refine ⟨?_, ?_, ?_⟩
  · intro h
    have h2 : (WolframApiClient.msgUpstream status statusText).data.getD 41 ' ' =
        WolframApiClient.msgUninterpretable.data.getD 41 ' ' :=
      congrArg (fun s : String => s.data.getD 41 ' ') h
    rw [hL 41 (by omega)] at h2
    exact absurd h2 (by decide)
  · intro h
    have h2 : (WolframApiClient.msgUpstream status statusText).data.getD 28 ' ' =
        WolframApiClient.msgInvalidFormat.data.getD 28 ' ' :=
      congrArg (fun s : String => s.data.getD 28 ' ') h
    rw [hL 28 (by omega)] at h2
    exact absurd h2 (by decide)
  · intro h
    have h2 : (WolframApiClient.msgUpstream status statusText).data.getD 28 ' ' =
        WolframApiClient.msgInvalidCreds.data.getD 28 ' ' :=
      congrArg (fun s : String => s.data.getD 28 ' ') h
    rw [hL 28 (by omega)] at h2
    exact absurd h2 (by decide)

/-- C8: `WolframApiClient.getQuickAnswer` maps HTTP 501 to the
uninterpretable-query error, 400 to the invalid-query-format error, 403 to
the invalid-credentials error, and every other non-2xx status to an upstream
error carrying that status; the four failure modes produce pairwise distinct
messages, and a 2xx response yields the response body trimmed of surrounding
whitespace. -/
theorem getQuickAnswer_status_map :
    (∀ statusText body,
      WolframApiClient.getQuickAnswer (FetchOutcome.response 501 statusText body) =
        Except.error WolframApiClient.msgUninterpretable) ∧
    (∀ statusText body,
      WolframApiClient.getQuickAnswer (FetchOutcome.response 400 statusText body) =
        Except.error WolframApiClient.msgInvalidFormat) ∧
    (∀ statusText body,
      WolframApiClient.getQuickAnswer (FetchOutcome.response 403 statusText body) =
        Except.error WolframApiClient.msgInvalidCreds) ∧
    (∀ status statusText body, status ≠ 501 → status ≠ 400 → status ≠ 403 →
      ¬(200 ≤ status ∧ status ≤ 299) →
      WolframApiClient.getQuickAnswer (FetchOutcome.response status statusText body) =
        Except.error (WolframApiClient.msgUpstream status statusText)) ∧
    (∀ status statusText body, 200 ≤ status → status ≤ 299 →
      WolframApiClient.getQuickAnswer (FetchOutcome.response status statusText body) =
        Except.ok body.trim) ∧
    (WolframApiClient.msgUninterpretable ≠ WolframApiClient.msgInvalidFormat ∧
      WolframApiClient.msgUninterpretable ≠ WolframApiClient.msgInvalidCreds ∧
      WolframApiClient.msgInvalidFormat ≠ WolframApiClient.msgInvalidCreds) ∧
    (∀ status statusText,
      WolframApiClient.msgUpstream status statusText ≠ WolframApiClient.msgUninterpretable ∧
      WolframApiClient.msgUpstream status statusText ≠ WolframApiClient.msgInvalidFormat ∧
      WolframApiClient.msgUpstream status statusText ≠ WolframApiClient.msgInvalidCreds) := by
  refine ⟨fun st b => rfl, fun st b => rfl, fun st b => rfl, ?_, ?_,
    ⟨by decide, by decide, by decide⟩, fun status statusText => msgUpstream_ne_fixed status statusText⟩
  · intro status statusText body h501 h400 h403 hnot
    simp [WolframApiClient.getQuickAnswer, h501, h400, h403, hnot]
  · intro status statusText body h200 h299
    have h501 : status ≠ 501 := by omega
    have h400 : status ≠ 400 := by omega
    have h403 : status ≠ 403 := by omega
    have hok : 200 ≤ status ∧ status ≤ 299 := ⟨h200, h299⟩
    simp [WolframApiClient.getQuickAnswer, h501, h400, h403, hok]

/-- Witness for C8's theorem: a 502 response and a 200 response. -/
theorem getQuickAnswer_status_map_witness :
    WolframApiClient.getQuickAnswer (FetchOutcome.response 502 "Bad Gateway" "") =
      Except.error (WolframApiClient.msgUpstream 502 "Bad Gateway") ∧
    WolframApiClient.getQuickAnswer (FetchOutcome.response 200 "OK" "42") =
      Except.ok ("42".trim) := by
  exact ⟨getQuickAnswer_status_map.2.2.2.1 502 "Bad Gateway" ""
      (by decide) (by decide) (by decide) (by omega),
    getQuickAnswer_status_map.2.2.2.2.1 200 "OK" "42" (by omega) (by omega)⟩

/-- C10: the cache read treats an empty stored value as a miss — it can
never return a (truthy-tested) empty string — so an invocation whose
sanitized, redacted output was cached as the empty string gives later
identical requests no cache hit: they re-execute the external call and are
charged again. -/
theorem checkCache_empty_falsy_recharge :
    WolframApiClient.checkCache (Except.ok (some "")) = none ∧
    (∀ r, WolframApiClient.checkCache r ≠ some "") ∧
    (∀ (input : ToolInput) (sfn rfn : String → String) (aid uid : String)
        (env : ToolEnv) (bc : BalanceCheckResult) (raw : String),
      env.userId = some uid →
      env.cacheRead = Except.ok (some "") →
      env.balance = Except.ok bc →
      bc.sufficient = true →
      env.apiResult = Except.ok raw →
      Event.apiCall input ∈ (runTool input sfn rfn aid env).events ∧
      (runTool input sfn rfn aid env).events.countP Event.isConsume = 1) := by
  refine ⟨by decide, ?_, ?_⟩
  · intro r h
    rcases r with e | o
    · simp [WolframApiClient.checkCache] at h
    · rcases o with _ | s
      · simp [WolframApiClient.checkCache, WolframApiClient.truthyStr] at h
      · by_cases hs : s.isEmpty
        · simp [WolframApiClient.checkCache, WolframApiClient.truthyStr, hs] at h
        · simp [WolframApiClient.checkCache, WolframApiClient.truthyStr, hs] at h
          subst h
          exact hs rfl
  · intro input sfn rfn aid uid env bc raw huid hread hbal hsuff hapi
    have he : "".isEmpty = true := by decide
    cases hco : env.consumeResult <;>
      simp [runTool, huid, hread, hbal, hsuff, hapi, hco, he,
        WolframApiClient.checkCache, WolframApiClient.truthyStr,
        List.countP_cons, Event.isConsume, Event.isApiCall]

/-- Witness for C10's theorem: a concrete environment whose cache holds the
empty string still performs the external call and exactly one charge. -/
theorem checkCache_empty_falsy_recharge_witness :
    Event.apiCall (ToolInput.quick "q" none) ∈
      (runTool (ToolInput.quick "q" none) id id "a-1"
        { userId := some "user-1", cacheRead := Except.ok (some ""),
          balance := Except.ok { sufficient := true, currentBalance := 10 },
          apiResult := Except.ok "2,789 km", consumeResult := Except.ok (),
          cachePutResult := Except.ok () }).events ∧
    (runTool (ToolInput.quick "q" none) id id "a-1"
        { userId := some "user-1", cacheRead := Except.ok (some ""),
          balance := Except.ok { sufficient := true, currentBalance := 10 },
          apiResult := Except.ok "2,789 km", consumeResult := Except.ok (),
          cachePutResult := Except.ok () }).events.countP Event.isConsume = 1 :=
  checkCache_empty_falsy_recharge.2.2 (ToolInput.quick "q" none) id id "a-1" "user-1"
    { userId := some "user-1", cacheRead := Except.ok (some ""),
      balance := Except.ok { sufficient := true, currentBalance := 10 },
      apiResult := Except.ok "2,789 km", consumeResult := Except.ok (),
      cachePutResult := Except.ok () }
    { sufficient := true, currentBalance := 10 } "2,789 km" rfl rfl rfl rfl rfl

/-- C1: on a cache miss with an insufficient balance, the external query
client is never invoked, the ledger's consume operation is never invoked,
nothing is written to the cache, and the handler returns (does not throw) an
`isError` response whose text is the structured insufficient-balance message
built from the current balance and the tool's cost. -/
theorem insufficient_balance_gate :
    ∀ (input : ToolInput) (sfn rfn : String → String) (aid uid : String)
      (env : ToolEnv) (bc : BalanceCheckResult),
      env.userId = some uid →
      WolframApiClient.truthyStr (WolframApiClient.checkCache env.cacheRead) = false →
      env.balance = Except.ok bc →
      bc.sufficient = false →
      (runTool input sfn rfn aid env).response =
        { text := formatInsufficientTokensError (toolName input) bc.currentBalance (toolCost input),
          isError := true } ∧
      (runTool input sfn rfn aid env).events =
        [Event.cacheGet (WolframApiClient.getCacheKey (toolName input) (canonicalQuery input)),
         Event.balanceCheck uid (toolCost input)] ∧
      (∀ e ∈ (runTool input sfn rfn aid env).events,
        Event.isApiCall e = false ∧ Event.isConsume e = false ∧ Event.isCachePut e = false) := by
  intro input sfn rfn aid uid env bc huid hmiss hbal hsuff
  refine ⟨?_, ?_, ?_⟩ <;>
    simp [runTool, huid, hmiss, hbal, hsuff,
      Event.isApiCall, Event.isConsume, Event.isCachePut]

/-- Witness for C1's theorem: a concrete environment with balance 1 against
cost 2. -/
theorem insufficient_balance_gate_witness :
    (runTool (ToolInput.quick "q" (some "metric")) id id "a-1"
        { userId := some "user-1", cacheRead := Except.ok none,
          balance := Except.ok { sufficient := false, currentBalance := 1 },
          apiResult := Except.ok "x", consumeResult := Except.ok (),
          cachePutResult := Except.ok () }).response =
      { text := formatInsufficientTokensError "getQuickAnswer" 1 2, isError := true } ∧
    (runTool (ToolInput.quick "q" (some "metric")) id id "a-1"
        { userId := some "user-1", cacheRead := Except.ok none,
          balance := Except.ok { sufficient := false, currentBalance := 1 },
          apiResult := Except.ok "x", consumeResult := Except.ok (),
          cachePutResult := Except.ok () }).events =
      [Event.cacheGet "wolfram:getQuickAnswer:qmetric", Event.balanceCheck "user-1" 2] := by
  have h := insufficient_balance_gate (ToolInput.quick "q" (some "metric")) id id "a-1" "user-1"
    { userId := some "user-1", cacheRead := Except.ok none,
      balance := Except.ok { sufficient := false, currentBalance := 1 },
      apiResult := Except.ok "x", consumeResult := Except.ok (),
      cachePutResult := Except.ok () }
    { sufficient := false, currentBalance := 1 } rfl rfl rfl rfl
  exact ⟨h.1, by rw [h.2.1]; decide⟩

/-- A successful cache read never delivers an empty value, so the value it
delivers is truthy. -/
theorem truthy_of_checkCache_eq_some {r : TsResult (Option String)} {c : String}
    (h : WolframApiClient.checkCache r = some c) :
    WolframApiClient.truthyStr (some c) = true := by
  rcases r with e | o
  · simp [WolframApiClient.checkCache] at h
  · by_cases ht : WolframApiClient.truthyStr o = true
    · rw [WolframApiClient.checkCache, if_pos ht] at h
      rwa [← h]
    · rw [WolframApiClient.checkCache, if_neg ht] at h
      exact absurd h (by simp)

/-- C4: on a cache hit the handler responds immediately with the cached
content prefixed by the cached-result marker and a blank line, and performs
no balance check, no external call, no ledger consume and no cache write —
so a cache hit cannot change the caller's token balance. -/
theorem cache_hit_short_circuit :
    ∀ (input : ToolInput) (sfn rfn : String → String) (aid uid c : String) (env : ToolEnv),
      env.userId = some uid →
      WolframApiClient.checkCache env.cacheRead = some c →
      (runTool input sfn rfn aid env).response =
        { text := "[Cached Result]\n\n" ++ c, isError := false } ∧
      (runTool input sfn rfn aid env).events =
        [Event.cacheGet (WolframApiClient.getCacheKey (toolName input) (canonicalQuery input))] ∧
      (∀ e ∈ (runTool input sfn rfn aid env).events,
        Event.isBalanceCheck e = false ∧ Event.isApiCall e = false ∧
        Event.isConsume e = false ∧ Event.isCachePut e = false) := by
  intro input sfn rfn aid uid c env huid hc
  have ht := truthy_of_checkCache_eq_some hc
  refine ⟨?_, ?_, ?_⟩ <;>
    simp [runTool, huid, hc, ht, Event.isBalanceCheck, Event.isApiCall,
      Event.isConsume, Event.isCachePut]

/-- Witness for C4's theorem: a concrete environment with a cached value. -/
theorem cache_hit_short_circuit_witness :
    (runTool (ToolInput.quick "q" none) id id "a-1"
        { userId := some "user-1", cacheRead := Except.ok (some "2,789 km"),
          balance := Except.ok { sufficient := true, currentBalance := 10 },
          apiResult := Except.ok "fresh", consumeResult := Except.ok (),
          cachePutResult := Except.ok () }).response =
      { text := "[Cached Result]\n\n2,789 km", isError := false } ∧
    (runTool (ToolInput.quick "q" none) id id "a-1"
        { userId := some "user-1", cacheRead := Except.ok (some "2,789 km"),
          balance := Except.ok { sufficient := true, currentBalance := 10 },
          apiResult := Except.ok "fresh", consumeResult := Except.ok (),
          cachePutResult := Except.ok () }).events =
      [Event.cacheGet "wolfram:getQuickAnswer:q"] := by
  have h := cache_hit_short_circuit (ToolInput.quick "q" none) id id "a-1" "user-1" "2,789 km"
    { userId := some "user-1", cacheRead := Except.ok (some "2,789 km"),
      balance := Except.ok { sufficient := true, currentBalance := 10 },
      apiResult := Except.ok "fresh", consumeResult := Except.ok (),
      cachePutResult := Except.ok () }
    rfl (by decide)
  exact ⟨by rw [h.1]; decide, by rw [h.2.1]; decide⟩

/-- C6: the handler never lets an exception escape — each thrown step
(missing user identity, balance check, external call, ledger consume; cache
reads and writes swallow their own errors and cannot throw) is caught at
the invocation boundary and converted into a returned `isError` response
whose text is the exception's message prefixed with `Error: `. -/
theorem error_boundary :
    ∀ (input : ToolInput) (sfn rfn : String → String) (aid : String) (env : ToolEnv),
      (env.userId = none →
        (runTool input sfn rfn aid env).response =
          { text := "Error: User ID not found in authentication context", isError := true }) ∧
      (∀ uid msg, env.userId = some uid →
        WolframApiClient.truthyStr (WolframApiClient.checkCache env.cacheRead) = false →
        env.balance = Except.error msg →
        (runTool input sfn rfn aid env).response =
          { text := "Error: " ++ msg, isError := true }) ∧
      (∀ uid bc msg, env.userId = some uid →
        WolframApiClient.truthyStr (WolframApiClient.checkCache env.cacheRead) = false →
        env.balance = Except.ok bc → bc.sufficient = true →
        env.apiResult = Except.error msg →
        (runTool input sfn rfn aid env).response =
          { text := "Error: " ++ msg, isError := true }) ∧
      (∀ uid bc raw msg, env.userId = some uid →
        WolframApiClient.truthyStr (WolframApiClient.checkCache env.cacheRead) = false →
        env.balance = Except.ok bc → bc.sufficient = true →
        env.apiResult = Except.ok raw →
        env.consumeResult = Except.error msg →
        (runTool input sfn rfn aid env).response =
          { text := "Error: " ++ msg, isError := true }) := by
  intro input sfn rfn aid env
  refine ⟨?_, ?_, ?_, ?_⟩
  · intro h
    simp [runTool, h]
  · intro uid msg huid hmiss hbal
    simp [runTool, huid, hmiss, hbal]
  · intro uid bc msg huid hmiss hbal hsuff hapi
    simp [runTool, huid, hmiss, hbal, hsuff, hapi]
  · intro uid bc raw msg huid hmiss hbal hsuff hapi hco
    simp [runTool, huid, hmiss, hbal, hsuff, hapi, hco]

/-- Witness for C6's theorem: a concrete environment whose external call
throws is answered by an `Error: `-prefixed `isError` response. -/
theorem error_boundary_witness :
    (runTool (ToolInput.detailed "q" none) id id "a-1"
        { userId := some "user-1", cacheRead := Except.ok none,
          balance := Except.ok { sufficient := true, currentBalance := 10 },
          apiResult := Except.error "upstream down", consumeResult := Except.ok (),
          cachePutResult := Except.ok () }).response =
      { text := "Error: upstream down", isError := true } :=
  (error_boundary (ToolInput.detailed "q" none) id id "a-1"
      { userId := some "user-1", cacheRead := Except.ok none,
        balance := Except.ok { sufficient := true, currentBalance := 10 },
        apiResult := Except.error "upstream down", consumeResult := Except.ok (),
        cachePutResult := Except.ok () }).2.2.1 "user-1"
    { sufficient := true, currentBalance := 10 } "upstream down" rfl (by decide) rfl rfl rfl

/-- C3: in every tool invocation the balance check precedes the external
call (and a failed balance check means no external call at all), the ledger
charge only ever receives the already-sanitized, already-redacted output of
the external call, and the cache store is always preceded by the charge. -/
theorem pipeline_order :
    ∀ (input : ToolInput) (sfn rfn : String → String) (aid : String) (env : ToolEnv),
      eventsBefore Event.isBalanceCheck Event.isApiCall (runTool input sfn rfn aid env).events = true ∧
      eventsBefore Event.isConsume Event.isCachePut (runTool input sfn rfn aid env).events = true ∧
      (∀ bc, env.balance = Except.ok bc → bc.sufficient = false →
        ∀ e ∈ (runTool input sfn rfn aid env).events, Event.isApiCall e = false) ∧
      (∀ u2 c2 sn tn inp out succ a2,
        Event.consume u2 c2 sn tn inp out succ a2 ∈ (runTool input sfn rfn aid env).events →
        ∃ raw, env.apiResult = Except.ok raw ∧ out = rfn (sfn raw)) := by
  intro input sfn rfn aid env
  obtain ⟨u, cr, b, a, co, cp⟩ := env
  rcases u with _ | uid
  · refine ⟨?_, ?_, ?_, ?_⟩ <;>
      simp [runTool, eventsBefore, firstIdxOf]
  by_cases hcache :
      WolframApiClient.truthyStr (WolframApiClient.checkCache cr) = true
  · refine ⟨?_, ?_, ?_, ?_⟩ <;>
      simp [runTool, hcache, eventsBefore, firstIdxOf, Event.isBalanceCheck,
        Event.isApiCall, Event.isConsume, Event.isCachePut]
  rcases b with msg | bc
  · refine ⟨?_, ?_, ?_, ?_⟩ <;>
      simp [runTool, hcache, eventsBefore, firstIdxOf, Event.isBalanceCheck,
        Event.isApiCall, Event.isConsume, Event.isCachePut]
  cases hsuff : bc.sufficient
  · refine ⟨?_, ?_, ?_, ?_⟩ <;>
      simp [runTool, hcache, hsuff, eventsBefore, firstIdxOf, Event.isBalanceCheck,
        Event.isApiCall, Event.isConsume, Event.isCachePut]
  rcases a with msg | raw
  · refine ⟨?_, ?_, ?_, ?_⟩ <;>
      simp [runTool, hcache, hsuff, eventsBefore, firstIdxOf, Event.isBalanceCheck,
        Event.isApiCall, Event.isConsume, Event.isCachePut]
  rcases co with msg | u2
  · refine ⟨?_, ?_, ?_, ?_⟩
    · simp [runTool, hcache, hsuff, eventsBefore, firstIdxOf, Event.isBalanceCheck,
        Event.isApiCall, Event.isConsume, Event.isCachePut]
    · simp [runTool, hcache, hsuff, eventsBefore, firstIdxOf, Event.isBalanceCheck,
        Event.isApiCall, Event.isConsume, Event.isCachePut]
    · intro bc2 hbc2 hsuff2
      rw [Except.ok.injEq] at hbc2
      subst hbc2
      rw [hsuff] at hsuff2
      exact absurd hsuff2 (by simp)
    · intro u3 c3 sn tn inp out succ a3 hmem
      simp [runTool, hcache, hsuff, Event.consume.injEq] at hmem
      exact ⟨raw, rfl, hmem.2.2.2.2.2.1⟩
  · refine ⟨?_, ?_, ?_, ?_⟩
    · simp [runTool, hcache, hsuff, eventsBefore, firstIdxOf, Event.isBalanceCheck,
        Event.isApiCall, Event.isConsume, Event.isCachePut]
    · simp [runTool, hcache, hsuff, eventsBefore, firstIdxOf, Event.isBalanceCheck,
        Event.isApiCall, Event.isConsume, Event.isCachePut]
    · intro bc2 hbc2 hsuff2
      rw [Except.ok.injEq] at hbc2
      subst hbc2
      rw [hsuff] at hsuff2
      exact absurd hsuff2 (by simp)
    · intro u3 c3 sn tn inp out succ a3 hmem
      simp [runTool, hcache, hsuff, Event.consume.injEq] at hmem
      exact ⟨raw, rfl, hmem.2.2.2.2.2.1⟩

/-- Witness for C3's theorem: on a concrete fully-successful environment the
ordering checks hold and the consume event carries the processed output. -/
theorem pipeline_order_witness :
    eventsBefore Event.isBalanceCheck Event.isApiCall
      (runTool (ToolInput.quick "q" none) id id "a-1"
        { userId := some "user-1", cacheRead := Except.ok none,
          balance := Except.ok { sufficient := true, currentBalance := 10 },
          apiResult := Except.ok "2,789 km", consumeResult := Except.ok (),
          cachePutResult := Except.ok () }).events = true ∧
    (∃ raw, (Except.ok "2,789 km" : TsResult String) = Except.ok raw ∧
      "2,789 km" = id (id raw)) := by
  refine ⟨(pipeline_order (ToolInput.quick "q" none) id id "a-1"
    { userId := some "user-1", cacheRead := Except.ok none,
      balance := Except.ok { sufficient := true, currentBalance := 10 },
      apiResult := Except.ok "2,789 km", consumeResult := Except.ok (),
      cachePutResult := Except.ok () }).1,
    (pipeline_order (ToolInput.quick "q" none) id id "a-1"
      { userId := some "user-1", cacheRead := Except.ok none,
        balance := Except.ok { sufficient := true, currentBalance := 10 },
        apiResult := Except.ok "2,789 km", consumeResult := Except.ok (),
        cachePutResult := Except.ok () }).2.2.2 "user-1" 2 "knowledge-engine"
      "getQuickAnswer" (ToolInput.quick "q" none) "2,789 km" true "a-1" ?_⟩
  decide

/-- C5: an invocation performs at most one ledger-consume call, and an
invocation that reaches the charge step performs exactly one, carrying the
invocation's single action identifier together with the user id, the tool's
fixed cost, the server name `knowledge-engine`, the tool name, the input
arguments, the sanitized redacted output and `success = true`; any retries
happen inside that single call of the ledger's retrying consume operation,
which receives that one identifier. -/
theorem consume_exactly_once :
    ∀ (input : ToolInput) (sfn rfn : String → String) (aid : String) (env : ToolEnv),
      (runTool input sfn rfn aid env).events.countP Event.isConsume ≤ 1 ∧
      (∀ uid bc raw, env.userId = some uid →
        WolframApiClient.truthyStr (WolframApiClient.checkCache env.cacheRead) = false →
        env.balance = Except.ok bc → bc.sufficient = true →
        env.apiResult = Except.ok raw →
        (runTool input sfn rfn aid env).events.countP Event.isConsume = 1 ∧
        Event.consume uid (toolCost input) "knowledge-engine" (toolName input) input
          (rfn (sfn raw)) true aid ∈ (runTool input sfn rfn aid env).events ∧
        (∀ u2 c2 sn tn inp out succ a2,
          Event.consume u2 c2 sn tn inp out succ a2 ∈ (runTool input sfn rfn aid env).events →
          u2 = uid ∧ c2 = toolCost input ∧ sn = "knowledge-engine" ∧ tn = toolName input ∧
          inp = input ∧ out = rfn (sfn raw) ∧ succ = true ∧ a2 = aid)) := by
  intro input sfn rfn aid env
  constructor
  · obtain ⟨u, cr, b, a, co, cp⟩ := env
    rcases u with _ | uid
    · simp [runTool]
    by_cases hcache :
        WolframApiClient.truthyStr (WolframApiClient.checkCache cr) = true
    · simp [runTool, hcache, List.countP_cons, Event.isConsume]
    rcases b with msg | bc
    · simp [runTool, hcache, List.countP_cons, Event.isConsume]
    cases hsuff : bc.sufficient
    · simp [runTool, hcache, hsuff, List.countP_cons, Event.isConsume]
    rcases a with msg | raw
    · simp [runTool, hcache, hsuff, List.countP_cons, Event.isConsume]
    rcases co with msg | u2 <;>
      simp [runTool, hcache, hsuff, List.countP_cons, Event.isConsume]
  · intro uid bc raw huid hmiss hbal hsuff hapi
    cases hco : env.consumeResult <;>
      · refine ⟨?_, ?_, ?_⟩
        · simp [runTool, huid, hmiss, hbal, hsuff, hapi, hco,
            List.countP_cons, Event.isConsume]
        · simp [runTool, huid, hmiss, hbal, hsuff, hapi, hco]
        · intro u2 c2 sn tn inp out succ a2 hmem
          simp [runTool, huid, hmiss, hbal, hsuff, hapi, hco,
            Event.consume.injEq] at hmem
          exact ⟨hmem.1, hmem.2.1, hmem.2.2.1, hmem.2.2.2.1, hmem.2.2.2.2.1,
            hmem.2.2.2.2.2.1, hmem.2.2.2.2.2.2⟩

/-- Witness for C5's theorem at a concrete fully-successful environment. -/
theorem consume_exactly_once_witness :
    (runTool (ToolInput.detailed "q" (some 2000)) id id "a-7"
        { userId := some "user-1", cacheRead := Except.ok none,
          balance := Except.ok { sufficient := true, currentBalance := 10 },
          apiResult := Except.ok "result", consumeResult := Except.ok (),
          cachePutResult := Except.ok () }).events.countP Event.isConsume = 1 ∧
    Event.consume "user-1" 4 "knowledge-engine" "getDetailedAnalysis"
        (ToolInput.detailed "q" (some 2000)) "result" true "a-7" ∈
      (runTool (ToolInput.detailed "q" (some 2000)) id id "a-7"
        { userId := some "user-1", cacheRead := Except.ok none,
          balance := Except.ok { sufficient := true, currentBalance := 10 },
          apiResult := Except.ok "result", consumeResult := Except.ok (),
          cachePutResult := Except.ok () }).events := by
  have h := (consume_exactly_once (ToolInput.detailed "q" (some 2000)) id id "a-7"
    { userId := some "user-1", cacheRead := Except.ok none,
      balance := Except.ok { sufficient := true, currentBalance := 10 },
      apiResult := Except.ok "result", consumeResult := Except.ok (),
      cachePutResult := Except.ok () }).2 "user-1"
    { sufficient := true, currentBalance := 10 } "result" rfl (by decide) rfl rfl rfl
  exact ⟨h.1, h.2.1⟩

/-- C2: on every successful invocation, the string given to the ledger's
consume operation as output, the string written to the cache, and the string
returned in the response are one and the same value — the redaction of the
sanitization of the raw upstream text — and (instantiating the spec-modelled
redactor) that common value contains no credit-card-like pattern whatever
the raw upstream text contained, so raw unsanitized upstream output is never
persisted to cache, charged for, or returned. -/
theorem sanitize_redact_no_leak :
    ∀ (input : ToolInput) (sfn : String → String) (aid uid raw : String)
      (env : ToolEnv) (bc : BalanceCheckResult),
      env.userId = some uid →
      WolframApiClient.truthyStr (WolframApiClient.checkCache env.cacheRead) = false →
      env.balance = Except.ok bc → bc.sufficient = true →
      env.apiResult = Except.ok raw →
      env.consumeResult = Except.ok () →
      (runTool input sfn redactPII aid env).response =
        { text := redactPII (sfn raw), isError := false } ∧
      Event.consume uid (toolCost input) "knowledge-engine" (toolName input) input
          (redactPII (sfn raw)) true aid ∈ (runTool input sfn redactPII aid env).events ∧
      Event.cachePut
          (WolframApiClient.storeCachePut
            (WolframApiClient.getCacheKey (toolName input) (canonicalQuery input))
            (redactPII (sfn raw))) ∈ (runTool input sfn redactPII aid env).events ∧
      (∀ e ∈ (runTool input sfn redactPII aid env).events,
        ∀ u2 c2 sn tn inp out succ a2, e = Event.consume u2 c2 sn tn inp out succ a2 →
          out = redactPII (sfn raw)) ∧
      (∀ e ∈ (runTool input sfn redactPII aid env).events,
        ∀ p, e = Event.cachePut p → p.value = redactPII (sfn raw)) ∧
      containsCreditCard (redactPII (sfn raw)) = false := by
  intro input sfn aid uid raw env bc huid hmiss hbal hsuff hapi hco
  refine ⟨?_, ?_, ?_, ?_, ?_, containsCreditCard_redactPII (sfn raw)⟩
  · simp [runTool, huid, hmiss, hbal, hsuff, hapi, hco]
  · simp [runTool, huid, hmiss, hbal, hsuff, hapi, hco]
  · simp [runTool, huid, hmiss, hbal, hsuff, hapi, hco]
  · intro e hmem u2 c2 sn tn inp out succ a2 he
    subst he
    simp [runTool, huid, hmiss, hbal, hsuff, hapi, hco, Event.consume.injEq] at hmem
    exact hmem.2.2.2.2.2.1
  · intro e hmem p he
    subst he
    simp [runTool, huid, hmiss, hbal, hsuff, hapi, hco,
      WolframApiClient.storeCachePut] at hmem
    rw [hmem]

/-- Witness for C2's theorem: a raw upstream text carrying a fabricated
credit-card-like number is returned, charged and cached only in its redacted
form. -/
theorem sanitize_redact_no_leak_witness :
    (runTool (ToolInput.quick "card" none) id redactPII "a-2"
        { userId := some "user-1", cacheRead := Except.ok none,
          balance := Except.ok { sufficient := true, currentBalance := 10 },
          apiResult := Except.ok "pay 4532-1111-2222-3333 now",
          consumeResult := Except.ok (), cachePutResult := Except.ok () }).response =
      { text := "pay [REDACTED] now", isError := false } ∧
    containsCreditCard "pay [REDACTED] now" = false ∧
    containsCreditCard "pay 4532-1111-2222-3333 now" = true := by
  have h := sanitize_redact_no_leak (ToolInput.quick "card" none) id "a-2" "user-1"
    "pay 4532-1111-2222-3333 now"
    { userId := some "user-1", cacheRead := Except.ok none,
      balance := Except.ok { sufficient := true, currentBalance := 10 },
      apiResult := Except.ok "pay 4532-1111-2222-3333 now",
      consumeResult := Except.ok (), cachePutResult := Except.ok () }
    { sufficient := true, currentBalance := 10 } rfl (by decide) rfl rfl rfl rfl
  refine ⟨?_, by decide, by decide⟩
  rw [h.1]
  decide

end KnowledgeEngine
